import Mathlib

/-!
# Verification of the circumflex core subsystems

A shallow embedding, in Lean 4, of the two core subsystems of the
circumflex repository: the recursive comment tree formatter
(`comment_parser.go`) and the paginated category list engine
(`src/bubble/list/list.go`), together with theorems settling the frozen
claims about them.

Conventions used throughout:

* Go `int` values are modelled as `Int`; Go integer division and
  remainder truncate toward zero, so they are modelled by `Int.tdiv` and
  `Int.tmod` (Lean `/` on `Int` is euclidean division and is used only in
  definitions that transcribe the prose specification).
* Go strings are modelled as Lean `String`; `strings.ReplaceAll` and the
  literal-pattern regular-expression replacements are modelled by a
  left-to-right, non-overlapping replacement function on character lists.
* External collaborators (the bubbles paginator, lipgloss rendering
  heights, the terminal metrics provider, the item source and the item
  delegate) are modelled by explicit state fields or parameters, as the
  specification treats them as inputs of the core.
-/

namespace Circumflex

/-! ## Comment formatter: constants (comment_parser.go lines 14-26) -/

def NORMAL : String := "\x1b[0m"

def BOLD : String := "\x1b[1m"

def DIMMED : String := "\x1b[2m"

def ITALIC : String := "\x1b[3m"

def GREEN : String := "\x1b[32;m"

def RED : String := "\x1b[31;m"

def Link_1 : String := "\x1b]8;;"

def Link_2 : String := "\x07"

def Link_3 : String := "\x1b]8;;\x07"

def NewLine : String := "\n"

def DoubleNewLine : String := "\n\n"

/-! ## String replacement machinery

`replaceListAux pat rep fuel l` replaces every non-overlapping
occurrence of `pat` in `l`, scanning left to right: the model of Go
`strings.ReplaceAll` and of `regexp.ReplaceAllString` on the literal
patterns used in `handleHrefTag`.  The `fuel` argument only makes the
recursion structural (so that proofs can evaluate it); every step
consumes at least one list element and exactly one unit of fuel, so
passing the length of the input as fuel runs the scan to the end.  An
empty pattern leaves the input unchanged (no call in the source uses an
empty pattern). -/

def replaceListAux (pat rep : List Char) : Nat → List Char → List Char
  | 0, l => l
  | fuel + 1, l =>
    match l with
    | [] => []
    | c :: rest =>
      if pat ≠ [] ∧ pat.isPrefixOf l then
        rep ++ replaceListAux pat rep fuel (List.drop (pat.length - 1) rest)
      else
        c :: replaceListAux pat rep fuel rest

/-- Model of Go `strings.Replace(s, pat, rep, 1)`: replace only the first
occurrence of `pat`. -/
def replaceFirstList (pat rep : List Char) : List Char → List Char
  | [] => []
  | c :: rest =>
    if pat ≠ [] ∧ pat.isPrefixOf (c :: rest) then
      rep ++ List.drop (pat.length - 1) rest
    else
      c :: replaceFirstList pat rep rest

def replaceAll (s pat rep : String) : String :=
  String.mk (replaceListAux pat.data rep.data s.data.length s.data)

def replaceFirst (s pat rep : String) : String :=
  String.mk (replaceFirstList pat.data rep.data s.data)

/-! ## Comment formatter: entity and tag substitution
(comment_parser.go lines 148-187) -/

/-- `replaceCharacters` (comment_parser.go lines 155-163): decode the
fixed table of HTML entities. -/
def replaceCharacters (input : String) : String :=
  let input := replaceAll input "&#x27;" "'"
  let input := replaceAll input "&gt;" ">"
  let input := replaceAll input "&lt;" "<"
  let input := replaceAll input "&#x2F;" "/"
  let input := replaceAll input "&quot;" "\""
  let input := replaceAll input "&amp;" "&"
  input

/-- `replaceHTML` (comment_parser.go lines 165-174): drop the leading
paragraph tag, then convert paragraph, italic and preformatted tags to
terminal styling codes. -/
def replaceHTML (input : String) : String :=
  let input := replaceFirst input "<p>" ""
  let input := replaceAll input "<p>" NewLine
  let input := replaceAll input "<i>" ITALIC
  let input := replaceAll input "</i>" NORMAL
  let input := replaceAll input "<pre><code>" DIMMED
  let input := replaceAll input "</code></pre>" NORMAL
  input

/-- `handleHrefTag` (comment_parser.go lines 176-187): the three
regular expressions used by the source are literal strings, so each
`ReplaceAllString` is a plain replace-all. -/
def handleHrefTag (input : String) : String :=
  let input := replaceAll input "<a href=\"" Link_1
  let input := replaceAll input "\" rel=\"nofollow\">" Link_2
  let input := replaceAll input "</a>" Link_3
  input

/-- `parseComment` (comment_parser.go lines 148-153): tag substitution
for paragraph/italic/preformatted tags, then entity decoding, then
anchor-tag substitution. -/
def parseComment (comment : String) : String :=
  let fixedHTML := replaceHTML comment
  let fixedHTMLAndCharacters := replaceCharacters fixedHTML
  let fixedHTMLAndCharactersAndHrefs := handleHrefTag fixedHTMLAndCharacters
  fixedHTMLAndCharactersAndHrefs

/-- Modelled from the spec: the order asserted by the specification,
with ALL tag substitution (anchor tags included) running before entity
decoding.  Used to compare the source order against the claimed one. -/
def specOrderParseComment (comment : String) : String :=
  replaceCharacters (handleHrefTag (replaceHTML comment))

/-! ## Hyperlink encoding (comment_parser.go lines 82-84) -/

/-- Model of what Go `fmt.Sprintf` emits for a `%d` verb applied to a
`string` argument: the bad-verb output `%!d(string=VALUE)`, per the Go
fmt package documentation on format errors. -/
def goSprintfDString (s : String) : String :=
  "%!d(string=" ++ s ++ ")"

/-- `getHyperlinkText` (comment_parser.go lines 82-84): the source
formats the five string operands with
`fmt.Sprintf("%d%d%d%d%d", Link_1, URL, Link_2, text, Link_3)`,
so every operand goes through the `%d` bad-verb path. -/
def getHyperlinkText (url text : String) : String :=
  goSprintfDString Link_1 ++ goSprintfDString url ++ goSprintfDString Link_2
    ++ goSprintfDString text ++ goSprintfDString Link_3

/-- Modelled from the spec: the OSC-8 hyperlink triple
`ESC]8;;` + URL + BEL + text + `ESC]8;;` + BEL, byte-exact. -/
def specHyperlinkText (url text : String) : String :=
  "\x1b]8;;" ++ url ++ "\x07" ++ text ++ "\x1b]8;;\x07"

/-! ## Right-aligned age string (comment_parser.go lines 112-127) -/

/-- Width of one character cell.  Modelled from the external
go-runewidth library restricted to the narrow case: control characters
occupy no cell, every other character one cell (the wide and combining
East Asian cases are not modelled; all inputs in the repository are
narrow). -/
def runeWidth (c : Char) : Nat :=
  if c.toNat < 32 ∨ c.toNat = 127 then 0 else 1

/-- State machine of the external go-term-text `Len` function: sum the
cell widths of the characters, ignoring everything from an ESC byte up
to the terminating letter `m` of the escape sequence. -/
def termLenAux : List Char → Bool → Nat
  | [], _ => 0
  | c :: rest, escape =>
    let escape1 := if c = '\x1b' then true else escape
    let w := if escape1 then 0 else runeWidth c
    let escape2 := if escape1 ∧ c = 'm' then false else escape1
    w + termLenAux rest escape2

/-- Visible length of a string on the terminal, model of the external
go-term-text `Len` used by the source for alignment. -/
def termLen (s : String) : Nat :=
  termLenAux s.data false

/-- The Go padding loop `for i := 0; i < n; i++ { pad += " " }`,
transcribed as appending one space per iteration. -/
def spacesLoop : Nat → String
  | 0 => ""
  | n + 1 => spacesLoop n ++ " "

/-- `getRightAlignedTimeAgo` (comment_parser.go lines 112-127).
`screenWidth` is the terminal width queried from the external terminal
metrics provider (a `uint` converted with `int(...)`, hence a `Nat`
cast to `Int`).  A negative space count runs the Go loop zero times,
which `Int.toNat` captures. -/
def getRightAlignedTimeAgo (screenWidth : Nat) (author timeAgo : String)
    (indentLevel : Int) : String :=
  let authorLength : Int := termLen author
  let timeAgoLength : Int := termLen timeAgo
  let padding : Int := 6
  let numberOfSpaces : Int :=
    (screenWidth : Int) - authorLength - timeAgoLength - padding - indentLevel
  let paddingBetweenAuthorAndTime := spacesLoop numberOfSpaces.toNat
  paddingBetweenAuthorAndTime ++ DIMMED ++ timeAgo ++ NORMAL ++ NewLine

lemma spacesLoop_eq_replicate (n : Nat) :
    spacesLoop n = String.mk (List.replicate n ' ') := by
  induction n with
  | zero => rfl
  | succ k ih =>
    rw [spacesLoop, ih]
    show String.mk (List.replicate k ' ' ++ [' ']) = _
    rw [← List.replicate_succ' (n := k)]

lemma toNat_max_zero (n : Int) : (max 0 n).toNat = n.toNat := by
  rcases le_total n 0 with h | h
  · rw [max_eq_left h]; omega
  · rw [max_eq_right h]

/-! ## List engine data model (src/bubble/list/list.go)

The engine state (`Model`) keeps the fields of the Go struct that the
verified operations read or write.  Fields owned by external
collaborators are modelled as data: the rendered heights of the title
and status chrome (computed by lipgloss/bheader in Go) are stored as
`titleViewHeight`/`statusViewHeight`, and the pluggable item delegate is
represented by its `Height`, `Spacing` and `Render` capabilities.  The
spinner model, key map, styles, status-message timer, history and HN
service are external and play no part in the claims. -/

/-- One story item.  Modelled from the spec: the `clx/item` package is
not under src; section 3 lists the fields as author handle, title,
score, comment count, age string, destination URL, domain label.  The
Go zero value `item.Item{}` is the instance with all fields defaulted. -/
structure Item where
  author : String := ""
  title : String := ""
  points : Int := 0
  commentsCount : Int := 0
  time : String := ""
  url : String := ""
  domain : String := ""
deriving DecidableEq, Repr

/-- State of the external charmbracelet/bubbles paginator used by the
engine; `paginator.New` defaults to page 0, one item per page, one
total page. -/
@[ext]
structure Paginator where
  page : Int := 0
  perPage : Int := 1
  totalPages : Int := 1
deriving DecidableEq, Repr

/-- `SetTotalPages` of the external bubbles paginator: given an item
count, stores `ceil(items / perPage)` using Go integer arithmetic; an
argument below 1 leaves the state unchanged. -/
def Paginator.setTotalPages (p : Paginator) (items : Int) : Paginator :=
  if items < 1 then p
  else
    let n := Int.tdiv items p.perPage
    let n := if Int.tmod items p.perPage > 0 then n + 1 else n
    { p with totalPages := n }

/-- `GetSliceBounds` of the external bubbles paginator. -/
def Paginator.getSliceBounds (p : Paginator) (length : Int) : Int × Int :=
  (p.page * p.perPage, min (p.page * p.perPage + p.perPage) length)

/-- `ItemsOnPage` of the external bubbles paginator. -/
def Paginator.itemsOnPage (p : Paginator) (totalItems : Int) : Int :=
  if totalItems < 1 then 0
  else (p.getSliceBounds totalItems).2 - (p.getSliceBounds totalItems).1

/-- `numberOfCategories` (list.go line 29). -/
def numberOfCategories : Nat := 4

/-- Modelled from the spec: the fixed category enumeration of the
`clx/constants/category` package (not under src) starts at the front
page; section 3 and the glossary list front page, new, ask, show. -/
def frontPage : Nat := 0

/-- Modelled from the spec: `category.Show`, the last of the four
categories. -/
def categoryShow : Nat := 3

/-- The list engine state (the Go `Model` struct, list.go lines 62-104).
`items` is the fixed per-category buffer array (Go `[][]*item.Item` of
length `numberOfCategories`), modelled as a total map; every operation
keeps `category` below `numberOfCategories`. -/
@[ext]
structure Model where
  showTitle : Bool
  showStatusBar : Bool
  disableInput : Bool
  showSpinner : Bool
  width : Int
  height : Int
  paginator : Paginator
  cursor : Int
  category : Nat
  items : Nat → List Item
  delegateHeight : Int
  delegateSpacing : Int
  titleViewHeight : Int
  statusViewHeight : Int
  delegateRender : Int → Item → String

/-- `VisibleItems` / `Items` (list.go lines 204-207, 235-238): the
active category buffer. -/
def Model.visibleItems (m : Model) : List Item :=
  m.items m.category

/-- `Index` (list.go lines 253-257): the global selection index. -/
def Model.index (m : Model) : Int :=
  m.paginator.page * m.paginator.perPage + m.cursor

/-- `ItemsOnPage` applied to the active buffer, the quantity the cursor
is clamped against. -/
def Model.itemsOnCurrentPage (m : Model) : Int :=
  m.paginator.itemsOnPage (m.visibleItems.length : Int)

/-- The local `max` helper of list.go (lines 702-708). -/
def goMax (a b : Int) : Int :=
  if a > b then a else b

/-- `updatePagination` (list.go lines 444-472).  The available height
subtracts the rendered heights of the title and status views when they
are shown; those heights come from external lipgloss rendering and are
carried in the state.  Go `/` and `%` truncate toward zero, hence
`Int.tdiv`/`Int.tmod`. -/
def updatePagination (m : Model) : Model :=
  let index := m.index
  let availHeight := if m.showTitle then m.height - m.titleViewHeight else m.height
  let availHeight := if m.showStatusBar then availHeight - m.statusViewHeight else availHeight
  let perPage := goMax 1 (Int.tdiv availHeight (m.delegateHeight + m.delegateSpacing))
  let p : Paginator := { m.paginator with perPage := perPage }
  let p : Paginator := if (m.visibleItems.length : Int) < 1 then
      p.setTotalPages 1
    else
      p.setTotalPages (m.visibleItems.length : Int)
  let p : Paginator := { p with page := Int.tdiv index perPage }
  let cursor := Int.tmod index perPage
  let p : Paginator :=
    if p.page ≥ p.totalPages - 1 then { p with page := goMax 0 (p.totalPages - 1) } else p
  { m with paginator := p, cursor := cursor }

/-- Modelled from the spec: the pagination algorithm of section 4.1,
transcribed formula by formula.  `ceil(itemCount / itemsPerPage)` is
written `(itemCount + itemsPerPage - 1) / itemsPerPage` (euclidean
division; the two agree on the non-negative operands involved), `floor`
is `Int.fdiv` and `mod` its companion `Int.fmod`. -/
def specUpdatePagination (m : Model) : Model :=
  let previousGlobalIndex := m.paginator.page * m.paginator.perPage + m.cursor
  let availableHeight := m.height
    - (if m.showTitle then m.titleViewHeight else 0)
    - (if m.showStatusBar then m.statusViewHeight else 0)
  let itemsPerPage := max 1 (availableHeight / (m.delegateHeight + m.delegateSpacing))
  let itemCount := (m.visibleItems.length : Int)
  let totalPages := max 1 ((itemCount + itemsPerPage - 1) / itemsPerPage)
  let page := Int.fdiv previousGlobalIndex itemsPerPage
  let cursor := Int.fmod previousGlobalIndex itemsPerPage
  let page := if page ≥ totalPages then max 0 (totalPages - 1) else page
  { m with
      paginator := { m.paginator with
        perPage := itemsPerPage
        totalPages := totalPages
        page := page }
      cursor := cursor }

/-- `Select` (list.go lines 218-222). -/
def select (index : Int) (m : Model) : Model :=
  { m with
      paginator := { m.paginator with page := Int.tdiv index m.paginator.perPage },
      cursor := Int.tmod index m.paginator.perPage }

/-- `CursorUp` (list.go lines 264-276): decrement, then clamp at the
top. -/
def cursorUp (m : Model) : Model :=
  let cursor := m.cursor - 1
  if cursor < 0 then { m with cursor := 0 } else { m with cursor := cursor }

/-- `CursorDown` (list.go lines 278-291): increment, then clamp against
the number of items on the current page. -/
def cursorDown (m : Model) : Model :=
  let itemsOnPage := m.paginator.itemsOnPage (m.visibleItems.length : Int)
  let cursor := m.cursor + 1
  if cursor < itemsOnPage then { m with cursor := cursor }
  else { m with cursor := itemsOnPage - 1 }

/-- `selectCategory` (list.go lines 323-346).  When the target buffer is
empty the source fetches stories from the mock service and shuffles
them before storing; the fetched-and-shuffled list arrives here as the
`fetched` parameter (external item source plus randomization). -/
def selectCategory (fetched : List Item) (category : Nat) (m : Model) : Model :=
  let m := { m with category := category }
  if (m.items category).length ≠ 0 then
    updatePagination { m with paginator := { m.paginator with page := 0 } }
  else
    let m := { m with items := Function.update m.items category fetched }
    updatePagination { m with paginator := { m.paginator with page := 0 } }

/-- `NextCategory` (list.go lines 301-310). -/
def nextCategory (fetched : List Item) (m : Model) : Model :=
  if m.category = numberOfCategories - 1 then selectCategory fetched frontPage m
  else selectCategory fetched (m.category + 1) m

/-- `PreviousCategory` (list.go lines 312-321). -/
def previousCategory (fetched : List Item) (m : Model) : Model :=
  if m.category = frontPage then selectCategory fetched categoryShow m
  else selectCategory fetched (m.category - 1) m

/-- `setSize` (list.go lines 438-442). -/
def setSize (width height : Int) (m : Model) : Model :=
  updatePagination { m with width := width, height := height }

/-- `StopSpinner` (list.go lines 378-381). -/
def stopSpinner (m : Model) : Model :=
  { m with showSpinner := false }

/-- The `fetchingFinished` case of `Update` (list.go lines 498-504):
stop the spinner, resize to the current terminal dimensions minus the
lipgloss frame (all four supplied by external collaborators), and clear
the input-disabled flag. -/
def updateFetchingFinished (termWidth termHeight frameH frameV : Int) (m : Model) : Model :=
  let m := stopSpinner m
  let m := setSize (termWidth - frameH) (termHeight - frameV) m
  { m with disableInput := false }

/-- `New` (list.go lines 115-154), restricted to the modelled fields:
title and status bar shown, input disabled, spinner hidden, empty
buffers, category at the front page, cursor zero (Go zero value),
default paginator state, then an initial `updatePagination`. -/
def new (delegateHeight delegateSpacing titleViewHeight statusViewHeight : Int)
    (delegateRender : Int → Item → String) (width height : Int) : Model :=
  updatePagination {
    showTitle := true
    showStatusBar := true
    disableInput := true
    showSpinner := false
    width := width
    height := height
    paginator := {}
    cursor := 0
    category := frontPage
    items := fun _ => []
    delegateHeight := delegateHeight
    delegateSpacing := delegateSpacing
    titleViewHeight := titleViewHeight
    statusViewHeight := statusViewHeight
    delegateRender := delegateRender }

/-- Go slice indexing `items[i]`, which fails (panics) out of range:
modelled as `Option`. -/
def goIndex (l : List Item) (i : Int) : Option Item :=
  if h : 0 ≤ i ∧ i.toNat < l.length then some (l.get ⟨i.toNat, h.2⟩) else none

/-- `SelectedItem` (list.go lines 240-251): guard the global index, and
fall back to a pointer to a zero-valued `item.Item` instead of
returning nil or indexing out of range. -/
def selectedItem (m : Model) : Option Item :=
  let i := m.index
  let items := m.visibleItems
  if i < 0 ∨ items.length = 0 ∨ (items.length : Int) ≤ i then some {}
  else goIndex items i

/-- Go slicing `l[start:stop]` on the in-range bounds produced by
`GetSliceBounds`. -/
def goSlice (l : List Item) (start stop : Int) : List Item :=
  (l.take stop.toNat).drop start.toNat

/-- The per-page render loop of `populatedView`: render each visible
item at its global index, inserting `spacing + 1` newlines between
consecutive items. -/
def renderDocs (render : Int → Item → String) (sep : String) : Int → List Item → String
  | _, [] => ""
  | i, [x] => render i x
  | i, x :: y :: rest => render i x ++ sep ++ renderDocs render sep (i + 1) (y :: rest)

/-- The `NoItems` lipgloss style of the missing styles.go, applied to a
placeholder text.  Modelled from the spec at the visible-text level
(section 4.2: visible-length accounting counts only printable
characters; a color-only style contributes none), so the style is the
identity on the placeholder content. -/
def noItemsRender (s : String) : String := s

/-- `populatedView` (list.go lines 661-696): the rendered body.  An
empty buffer returns the NoItems style applied to the EMPTY string; a
non-empty buffer renders the current page slice and pads the last page
with newlines up to constant height.  (`strings.Repeat` on a negative
count is a Go panic; the counts below are non-negative in reachable
states and `Int.toNat` is used.) -/
def populatedView (m : Model) : String :=
  let items := m.visibleItems
  if items.length = 0 then noItemsRender ""
  else
    let bounds := m.paginator.getSliceBounds (items.length : Int)
    let docs := goSlice items bounds.1 bounds.2
    let sep := String.mk (List.replicate (m.delegateSpacing + 1).toNat '\n')
    let body := renderDocs m.delegateRender sep bounds.1 docs
    let itemsOnPage := m.paginator.itemsOnPage (items.length : Int)
    if itemsOnPage < m.paginator.perPage then
      let n := (m.paginator.perPage - itemsOnPage) * (m.delegateHeight + m.delegateSpacing)
      let n := if items.length = 0 then n - (m.delegateHeight - 1) else n
      body ++ String.mk (List.replicate n.toNat '\n')
    else body

/-! ## Helper lemmas about the cursor and pagination operations -/

lemma cursorUp_cursor_nonneg (m : Model) :
    0 ≤ (cursorUp m).cursor := by
  simp only [cursorUp]
  split
  · exact le_rfl
  · show (0 : Int) ≤ m.cursor - 1
    omega

lemma cursorDown_inv (m : Model) (hge : 1 ≤ m.itemsOnCurrentPage)
    (h0 : 0 ≤ m.cursor) (h1 : m.cursor ≤ m.itemsOnCurrentPage - 1) :
    0 ≤ (cursorDown m).cursor ∧
    (cursorDown m).cursor ≤ (cursorDown m).itemsOnCurrentPage - 1 ∧
    (cursorDown m).itemsOnCurrentPage = m.itemsOnCurrentPage := by
  unfold Model.itemsOnCurrentPage at hge h1 ⊢
  simp only [cursorDown]
  split
  · rename_i hc
    refine ⟨by show (0 : Int) ≤ m.cursor + 1; omega, ?_, rfl⟩
    show m.cursor + 1 ≤ m.paginator.itemsOnPage (m.visibleItems.length : Int) - 1
    omega
  · refine ⟨?_, ?_, rfl⟩
    · show (0 : Int) ≤ m.paginator.itemsOnPage (m.visibleItems.length : Int) - 1
      omega
    · show m.paginator.itemsOnPage (m.visibleItems.length : Int) - 1 ≤
        m.paginator.itemsOnPage (m.visibleItems.length : Int) - 1
      exact le_rfl

lemma clamp_zero (tp : Int) :
    (if (0 : Int) ≥ tp - 1 then goMax 0 (tp - 1) else 0) = 0 := by
  split
  · unfold goMax
    split <;> omega
  · rfl

lemma updatePagination_index_zero (m : Model) (h : m.index = 0) :
    (updatePagination m).paginator.page = 0 ∧ (updatePagination m).cursor = 0 := by
  simp only [updatePagination]
  rw [h, Int.zero_tdiv, Int.zero_tmod]
  constructor
  · rw [apply_ite Paginator.page]
    exact clamp_zero _
  · rfl

/-! ## Arithmetic lemmas for the pagination refinement -/

lemma goMax_eq_max (a b : Int) : goMax a b = max a b := by
  unfold goMax
  split <;> omega

lemma max_one_tdiv_eq (ah d : Int) (hd : 0 < d) :
    goMax 1 (Int.tdiv ah d) = max 1 (ah / d) := by
  rw [goMax_eq_max]
  rcases le_or_lt 0 ah with h | h
  · rw [Int.tdiv_eq_ediv h (le_of_lt hd)]
  · have t1 : 0 ≤ (-ah).tdiv d := Int.tdiv_nonneg (by omega) (le_of_lt hd)
    rw [Int.neg_tdiv] at t1
    have t2 : ah / d < 0 := Int.ediv_neg' h hd
    omega

lemma ediv_ceil_eq (len pp : Int) (hl : 0 ≤ len) (hp : 0 < pp) :
    (len + pp - 1) / pp = len / pp + (if 0 < len % pp then 1 else 0) := by
  have h0 : 0 ≤ len % pp := Int.emod_nonneg len (by omega)
  have h1 : len % pp < pp := Int.emod_lt_of_pos len hp
  have hdm : pp * (len / pp) + len % pp = len := Int.ediv_add_emod len pp
  rw [mul_comm] at hdm
  have key : len + pp - 1 = (len % pp + pp - 1) + (len / pp) * pp := by omega
  rw [key, Int.add_mul_ediv_right _ _ (by omega : pp ≠ 0)]
  by_cases hr : 0 < len % pp
  · rw [if_pos hr]
    have key2 : len % pp + pp - 1 = (len % pp - 1) + 1 * pp := by ring
    rw [key2, Int.add_mul_ediv_right _ _ (by omega : pp ≠ 0),
      Int.ediv_eq_zero_of_lt (by omega) (by omega)]
    omega
  · rw [if_neg hr]
    have hr0 : len % pp = 0 := by omega
    rw [hr0]
    have e0 : (0 : Int) + pp - 1 = pp - 1 := by ring
    rw [e0, Int.ediv_eq_zero_of_lt (by omega) (by omega)]
    omega

lemma setTotalPages_perPage (p : Paginator) (i : Int) :
    (p.setTotalPages i).perPage = p.perPage := by
  simp only [Paginator.setTotalPages]
  split <;> rfl

lemma setTotalPages_eq_ceil (p : Paginator) (len : Int) (hp : 0 < p.perPage) (hl : 0 ≤ len) :
    (if len < 1 then p.setTotalPages 1 else p.setTotalPages len).totalPages
      = max 1 ((len + p.perPage - 1) / p.perPage) := by
  have hppne : p.perPage ≠ 0 := by omega
  split
  · rename_i hlen
    have hl0 : len = 0 := by omega
    subst hl0
    simp only [Paginator.setTotalPages]
    rw [if_neg (by omega : ¬ (1 : Int) < 1)]
    show (if Int.tmod 1 p.perPage > 0 then Int.tdiv 1 p.perPage + 1 else Int.tdiv 1 p.perPage)
        = max 1 ((0 + p.perPage - 1) / p.perPage)
    rw [Int.tmod_eq_emod (by omega) (by omega), Int.tdiv_eq_ediv (by omega) (by omega)]
    have hshape : (if (1 : Int) % p.perPage > 0 then 1 / p.perPage + 1 else 1 / p.perPage)
        = 1 / p.perPage + (if 0 < (1 : Int) % p.perPage then 1 else 0) := by
      split <;> omega
    rw [hshape, ← ediv_ceil_eq 1 p.perPage (by omega) hp]
    have e1 : (1 : Int) + p.perPage - 1 = p.perPage := by ring
    have e2 : (0 : Int) + p.perPage - 1 = p.perPage - 1 := by ring
    rw [e1, e2, Int.ediv_self hppne, Int.ediv_eq_zero_of_lt (by omega) (by omega)]
    omega
  · rename_i hlen
    have hl1 : 1 ≤ len := by omega
    simp only [Paginator.setTotalPages]
    rw [if_neg (by omega : ¬ len < 1)]
    show (if Int.tmod len p.perPage > 0 then Int.tdiv len p.perPage + 1
          else Int.tdiv len p.perPage)
        = max 1 ((len + p.perPage - 1) / p.perPage)
    rw [Int.tmod_eq_emod (by omega) (by omega), Int.tdiv_eq_ediv (by omega) (by omega)]
    have hshape : (if len % p.perPage > 0 then len / p.perPage + 1 else len / p.perPage)
        = len / p.perPage + (if 0 < len % p.perPage then 1 else 0) := by
      split <;> omega
    rw [hshape, ← ediv_ceil_eq len p.perPage (by omega) hp]
    have hge1 : 1 ≤ (len + p.perPage - 1) / p.perPage := by
      rw [Int.le_ediv_iff_mul_le hp]
      omega
    omega

lemma page_clamp_eq (idx pp tp : Int) (hidx : 0 ≤ idx) (hpp : 0 < pp) (htp : 1 ≤ tp) :
    (if Int.tdiv idx pp ≥ tp - 1 then goMax 0 (tp - 1) else Int.tdiv idx pp)
      = (if Int.fdiv idx pp ≥ tp then max 0 (tp - 1) else Int.fdiv idx pp) := by
  rw [Int.tdiv_eq_ediv hidx (by omega), Int.fdiv_eq_ediv idx (by omega), goMax_eq_max]
  have h0 : 0 ≤ idx / pp := Int.ediv_nonneg hidx (by omega)
  split <;> split <;> omega

lemma tmod_eq_fmod (idx pp : Int) (hidx : 0 ≤ idx) (hpp : 0 < pp) :
    Int.tmod idx pp = Int.fmod idx pp := by
  rw [Int.tmod_eq_emod hidx (by omega), Int.fmod_eq_emod idx (by omega)]

lemma availHeight_eq (h tv sv : Int) (b1 b2 : Bool) :
    (if b2 then (if b1 then h - tv else h) - sv else (if b1 then h - tv else h))
      = h - (if b1 then tv else 0) - (if b2 then sv else 0) := by
  cases b1 <;> cases b2 <;> simp

/-! ## Concrete engine states used by witnesses and counterexamples -/

/-- A concrete engine state whose four buffers are all empty, in the
default paginator state. -/
def mEmpty : Model :=
  { showTitle := true
    showStatusBar := true
    disableInput := false
    showSpinner := false
    width := 20
    height := 10
    paginator := {}
    cursor := 0
    category := 0
    items := fun _ => []
    delegateHeight := 1
    delegateSpacing := 0
    titleViewHeight := 2
    statusViewHeight := 1
    delegateRender := fun _ _ => "" }

/-- A concrete engine state with two items on the current page. -/
def mTwo : Model :=
  { showTitle := true
    showStatusBar := true
    disableInput := false
    showSpinner := false
    width := 20
    height := 10
    paginator := { page := 0, perPage := 2, totalPages := 1 }
    cursor := 0
    category := 0
    items := fun c => if c = 0 then [{}, {}] else []
    delegateHeight := 1
    delegateSpacing := 0
    titleViewHeight := 2
    statusViewHeight := 1
    delegateRender := fun _ _ => "" }

/-- A concrete engine state about to switch from category 0 (cursor on
row 3) to category 1, whose buffer holds seven items; no chrome is
shown and the viewport fits five rows per page. -/
def mSwitch : Model :=
  { showTitle := false
    showStatusBar := false
    disableInput := false
    showSpinner := false
    width := 80
    height := 5
    paginator := { page := 0, perPage := 5, totalPages := 1 }
    cursor := 3
    category := 0
    items := fun c => if c = 1 then List.replicate 7 {} else List.replicate 1 {}
    delegateHeight := 1
    delegateSpacing := 0
    titleViewHeight := 2
    statusViewHeight := 1
    delegateRender := fun _ _ => "" }

/-- C1: `updatePagination` computes exactly the pagination state of the
specification formula — items per page from the available height, total
pages as a clamped ceiling, page and cursor recovered from the previous
global index, and the final page clamp.  (The source clamps when
`page >= totalPages - 1` rather than `page >= totalPages`, but on the
boundary the assignment is the identity, so the states coincide.)  The
hypotheses say the previous page, cursor and per-page count are
non-negative — as in every reachable state — and that an item occupies
at least one row, without which the Go code would divide by zero. -/
theorem updatePagination_refines_spec (m : Model)
    (hpage : 0 ≤ m.paginator.page) (hcur : 0 ≤ m.cursor)
    (hpp0 : 0 ≤ m.paginator.perPage)
    (hd : 0 < m.delegateHeight + m.delegateSpacing) :
    updatePagination m = specUpdatePagination m := by
  have hidx : 0 ≤ m.index := add_nonneg (mul_nonneg hpage hpp0) hcur
  have hlen : (0 : Int) ≤ (m.visibleItems.length : Int) := Int.natCast_nonneg _
  simp only [updatePagination, specUpdatePagination]
  rw [availHeight_eq m.height m.titleViewHeight m.statusViewHeight m.showTitle m.showStatusBar]
  rw [max_one_tdiv_eq _ _ hd]
  set P : Int := max 1 ((m.height - (if m.showTitle then m.titleViewHeight else 0)
    - (if m.showStatusBar then m.statusViewHeight else 0))
      / (m.delegateHeight + m.delegateSpacing)) with hPdef
  have hP : (0 : Int) < P := lt_of_lt_of_le one_pos (le_max_left _ _)
  have hPpag : (0 : Int) < ({ m.paginator with perPage := P } : Paginator).perPage := hP
  congr 1
  · -- the paginator component
    apply Paginator.ext
    · -- page
      rw [apply_ite Paginator.page]
      dsimp only
      rw [setTotalPages_eq_ceil _ _ hPpag hlen]
      dsimp only
      exact page_clamp_eq m.index P _ hidx hP (le_max_left 1 _)
    · -- perPage
      rw [apply_ite Paginator.perPage]
      dsimp only
      rw [apply_ite Paginator.perPage, setTotalPages_perPage, setTotalPages_perPage, ite_self,
        ite_self]
    · -- totalPages
      rw [apply_ite Paginator.totalPages]
      dsimp only
      rw [ite_self, setTotalPages_eq_ceil _ _ hPpag hlen]
  · -- the cursor component
    exact tmod_eq_fmod _ _ hidx hP

/-- C1 witness: the refinement evaluated at the concrete all-empty
state. -/
theorem updatePagination_refines_spec_witness :
    updatePagination mEmpty = specUpdatePagination mEmpty :=
  updatePagination_refines_spec mEmpty (by decide) (by decide) (by decide) (by decide)

/-- C2: the hyperlink-encoding function does NOT return the OSC-8 byte
sequence.  The source formats its five string operands with `%d` verbs
(`fmt.Sprintf("%d%d%d%d%d", ...)`), so each operand is emitted as the
bad-verb text `%!d(string=...)`: at URL `https://example.com` and
visible text `example.com` the output differs from the byte-exact OSC-8
triple the claim requires, and equals the bad-verb concatenation. -/
theorem getHyperlinkText_percent_d_output :
    getHyperlinkText "https://example.com" "example.com"
        ≠ specHyperlinkText "https://example.com" "example.com" ∧
    getHyperlinkText "https://example.com" "example.com"
        = "%!d(string=\x1b]8;;)%!d(string=https://example.com)%!d(string=\x07)"
            ++ "%!d(string=example.com)%!d(string=\x1b]8;;\x07)" := by
  constructor
  · decide
  · decide

/-- C3 counterexample: entity decoding DOES re-introduce tag syntax that
is then processed as a tag, because anchor-tag substitution runs after
entity decoding.  On the entity-escaped anchor
`&lt;a href="u" rel="nofollow"&gt;x&lt;/a&gt;` the source turns the
decoded text into a live hyperlink triple, while the order asserted by
the claim (all tag substitution first) would leave the literal anchor
text; the two orders disagree on this input. -/
theorem parseComment_entity_reintroduces_anchor :
    parseComment "&lt;a href=\"u\" rel=\"nofollow\"&gt;x&lt;/a&gt;"
        = Link_1 ++ "u" ++ Link_2 ++ "x" ++ Link_3 ∧
    specOrderParseComment "&lt;a href=\"u\" rel=\"nofollow\"&gt;x&lt;/a&gt;"
        = "<a href=\"u\" rel=\"nofollow\">x</a>" ∧
    parseComment "&lt;a href=\"u\" rel=\"nofollow\"&gt;x&lt;/a&gt;"
        ≠ specOrderParseComment "&lt;a href=\"u\" rel=\"nofollow\"&gt;x&lt;/a&gt;" := by
  refine ⟨by decide, by decide, by decide⟩

/-- C3 amended: paragraph, italic and preformatted tag substitution runs
before entity decoding, so the claimed concrete case holds: the body
`it&#x27;s <i>great</i>` formats to `it's ` + italic-on + `great` +
italic-off, with the apostrophe entity decoded and no double-processing.
Anchor-tag substitution, however, runs after entity decoding (the
counterexample above), so an entity-escaped anchor is processed as a
tag. -/
theorem parseComment_tag_entity_order :
    parseComment "it&#x27;s <i>great</i>" = "it's " ++ ITALIC ++ "great" ++ NORMAL ∧
    parseComment "it&#x27;s <i>great</i>" = "it's \x1b[3mgreat\x1b[0m" := by
  refine ⟨by decide, by decide⟩

/-- C9: the gap before the right-aligned age string is exactly
`max(0, screenWidth - visibleLength(author) - visibleLength(age) - 6 -
indentLevel)` spaces (the fixed padding is 6); a negative computed gap
degrades to zero spaces rather than failing, since the Go padding loop
runs zero times.  At width 80 with author `bob` (visible length 3) and
age `3 hours ago` (visible length 11) at depth 0 the gap is
80-3-11-6 = 60 spaces, and at width 5 it is 0 spaces. -/
theorem getRightAlignedTimeAgo_gap :
    (∀ (w : Nat) (author timeAgo : String) (ind : Int),
      getRightAlignedTimeAgo w author timeAgo ind =
        String.mk (List.replicate
            ((max 0 ((w : Int) - termLen author - termLen timeAgo - 6 - ind)).toNat) ' ')
          ++ DIMMED ++ timeAgo ++ NORMAL ++ NewLine) ∧
    termLen "bob" = 3 ∧ termLen "3 hours ago" = 11 ∧
    (max 0 ((80 : Int) - termLen "bob" - termLen "3 hours ago" - 6 - 0)).toNat = 60 ∧
    (max 0 ((5 : Int) - termLen "bob" - termLen "3 hours ago" - 6 - 0)).toNat = 0 := by
  refine ⟨?_, by decide, by decide, by decide, by decide⟩
  intro w author timeAgo ind
  simp only [getRightAlignedTimeAgo]
  rw [spacesLoop_eq_replicate, toNat_max_zero]

/-- C4 counterexample: `CursorDown` does NOT preserve the cursor
invariant when the current page is empty.  In the state `mEmpty` the
invariant holds (cursor 0 on an empty page), yet one `CursorDown` sets
the cursor to `itemsOnPage - 1 = -1`, below zero. -/
theorem cursorDown_empty_page_negative :
    mEmpty.cursor = 0 ∧ mEmpty.itemsOnCurrentPage = 0 ∧
    (cursorDown mEmpty).cursor = -1 := by
  refine ⟨rfl, by decide, by decide⟩

/-- C4 amended: starting from a state satisfying the cursor invariant,
any number of `CursorUp` calls keeps the cursor at 0 or above, and — on
a NON-empty page — any number of `CursorDown` calls keeps the cursor
between 0 and `itemsOnPage - 1`.  (On an empty page `CursorDown` sets
the cursor to -1, per the counterexample.) -/
theorem cursor_clamp_preserved (m : Model) (n : Nat) :
    (0 ≤ m.cursor → 0 ≤ (cursorUp^[n] m).cursor) ∧
    (1 ≤ m.itemsOnCurrentPage → 0 ≤ m.cursor → m.cursor ≤ m.itemsOnCurrentPage - 1 →
      0 ≤ (cursorDown^[n] m).cursor ∧
      (cursorDown^[n] m).cursor ≤ m.itemsOnCurrentPage - 1) := by
  induction n generalizing m with
  | zero => exact ⟨fun h => h, fun _ h0 h1 => ⟨h0, h1⟩⟩
  | succ k ih =>
    constructor
    · intro h
      rw [Function.iterate_succ_apply]
      exact (ih (cursorUp m)).1 (cursorUp_cursor_nonneg m)
    · intro hge h0 h1
      rw [Function.iterate_succ_apply]
      obtain ⟨d0, d1, dg⟩ := cursorDown_inv m hge h0 h1
      have hres := (ih (cursorDown m)).2 (by rw [dg]; exact hge) d0 d1
      rw [dg] at hres
      exact hres

/-- C4 witness: the clamp theorem applied to the concrete two-item
state, three cursor moves in each direction. -/
theorem cursor_clamp_preserved_witness :
    0 ≤ (cursorUp^[3] mTwo).cursor ∧
    (0 ≤ (cursorDown^[3] mTwo).cursor ∧
      (cursorDown^[3] mTwo).cursor ≤ mTwo.itemsOnCurrentPage - 1) :=
  ⟨(cursor_clamp_preserved mTwo 3).1 (by decide),
   (cursor_clamp_preserved mTwo 3).2 (by decide) (by decide) (by decide)⟩

/-- C5 counterexample: a category switch does NOT reset the cursor to
0.  Switching `mSwitch` (cursor on row 3) to the non-empty category 1
leaves the cursor at 3 after the pagination recomputation. -/
theorem nextCategory_keeps_cursor :
    (mSwitch.items 1).length = 7 ∧ mSwitch.cursor = 3 ∧
    (nextCategory [] mSwitch).category = 1 ∧
    (nextCategory [] mSwitch).cursor = 3 ∧
    ¬(nextCategory [] mSwitch).cursor = 0 := by
  refine ⟨by decide, rfl, by decide, by decide, by decide⟩

/-- C5 amended: a category switch in either direction resets the page
index to 0 and recomputes the pagination from the carried-over cursor
alone; the selection therefore lands at the start of the new category
exactly when the cursor was already on the first row (cursor = 0), and
in general the cursor is preserved rather than reset. -/
theorem categorySwitch_resets_when_cursor_zero (fetched : List Item) (m : Model)
    (h : m.cursor = 0) :
    ((nextCategory fetched m).paginator.page = 0 ∧ (nextCategory fetched m).cursor = 0) ∧
    ((previousCategory fetched m).paginator.page = 0 ∧
      (previousCategory fetched m).cursor = 0) := by
  have key : ∀ (f : List Item) (c : Nat) (mm : Model), mm.cursor = 0 →
      (selectCategory f c mm).paginator.page = 0 ∧ (selectCategory f c mm).cursor = 0 := by
    intro f c mm hc
    simp only [selectCategory]
    split
    · exact updatePagination_index_zero _ (by simp [Model.index, hc])
    · exact updatePagination_index_zero _ (by simp [Model.index, hc])
  constructor
  · unfold nextCategory
    split
    · exact key fetched frontPage m h
    · exact key fetched (m.category + 1) m h
  · unfold previousCategory
    split
    · exact key fetched categoryShow m h
    · exact key fetched (m.category - 1) m h

/-- C5 witness: both switch directions from a cursor-0 state land on
page 0, cursor 0. -/
theorem categorySwitch_resets_when_cursor_zero_witness :
    ((nextCategory [] mEmpty).paginator.page = 0 ∧ (nextCategory [] mEmpty).cursor = 0) ∧
    ((previousCategory [] mEmpty).paginator.page = 0 ∧
      (previousCategory [] mEmpty).cursor = 0) :=
  categorySwitch_resets_when_cursor_zero [] mEmpty rfl

/-- C6: the round-trip law.  `Select(i)` stores `i / perPage` and
`i mod perPage`, and `Index()` recombines them as
`page * perPage + cursor`, giving back `i` for every in-bounds index
(0 ≤ i) whenever at least one item fits per page. -/
theorem select_index_roundtrip (m : Model) (i : Int)
    (hp : 1 ≤ m.paginator.perPage) (hi : 0 ≤ i) :
    (select i m).index = i := by
  unfold select Model.index
  have hpp : (0 : Int) ≤ m.paginator.perPage := by omega
  show Int.tdiv i m.paginator.perPage * m.paginator.perPage
      + Int.tmod i m.paginator.perPage = i
  rw [Int.tdiv_eq_ediv hi hpp, Int.tmod_eq_emod hi hpp, mul_comm]
  exact Int.ediv_add_emod i m.paginator.perPage

/-- C6 witness: the round trip at index 7 in the default one-per-page
state. -/
theorem select_index_roundtrip_witness : (select 7 mEmpty).index = 7 :=
  select_index_roundtrip mEmpty 7 (by decide) (by decide)

/-- C7 counterexample: the rendered body of an empty buffer IS the
empty string.  `populatedView` returns the NoItems style applied to
`""`, so the state `mEmpty`, whose active buffer is empty, renders no
placeholder text at all. -/
theorem populatedView_empty_is_empty_string :
    mEmpty.visibleItems.length = 0 ∧ populatedView mEmpty = "" := by
  refine ⟨by decide, by decide⟩

/-- C7 amended: for every state whose active buffer is empty, the
rendered body is the empty string (the NoItems style applied to an
empty placeholder), not a non-empty placeholder. -/
theorem populatedView_empty_buffer (m : Model) (h : m.visibleItems.length = 0) :
    populatedView m = "" := by
  unfold populatedView
  rw [if_pos h]
  rfl

/-- C7 witness: the amended statement evaluated at the concrete
empty-buffer state. -/
theorem populatedView_empty_buffer_witness : populatedView mEmpty = "" :=
  populatedView_empty_buffer mEmpty (by decide)

/-- C8: processing the fetch-completion event clears the input-disabled
flag unconditionally — for every state and every terminal/frame
dimension, whether or not the fetch populated the buffer — and the flag
starts out true at construction. -/
theorem fetchingFinished_enables_input :
    (∀ (termWidth termHeight frameH frameV : Int) (m : Model),
      (updateFetchingFinished termWidth termHeight frameH frameV m).disableInput = false) ∧
    (∀ (dh ds tvh svh : Int) (r : Int → Item → String) (w h : Int),
      (new dh ds tvh svh r w h).disableInput = true) := by
  exact ⟨fun _ _ _ _ _ => rfl, fun _ _ _ _ _ _ _ => rfl⟩

/-- C10: `SelectedItem` is total — it always produces an item, and
whenever the buffer is empty or the selection index is negative or past
the end, that item is the zero-valued `item.Item`. -/
theorem selectedItem_total_zero_fallback (m : Model) :
    (selectedItem m).isSome = true ∧
    ((m.index < 0 ∨ m.visibleItems.length = 0 ∨
        (m.visibleItems.length : Int) ≤ m.index) →
      selectedItem m = some {}) := by
  unfold selectedItem
  by_cases h : m.index < 0 ∨ m.visibleItems.length = 0 ∨
      (m.visibleItems.length : Int) ≤ m.index
  · rw [if_pos h]
    exact ⟨rfl, fun _ => rfl⟩
  · rw [if_neg h]
    push_neg at h
    obtain ⟨h1, h2, h3⟩ := h
    have hnn : 0 ≤ m.index := h1
    have hlt : m.index.toNat < m.visibleItems.length := by omega
    refine ⟨?_, fun hc => absurd hc (by push_neg; exact ⟨h1, h2, h3⟩)⟩
    unfold goIndex
    rw [dif_pos ⟨hnn, hlt⟩]
    rfl

/-- C10 witness: at the concrete empty-buffer state the fallback item
is returned. -/
theorem selectedItem_total_zero_fallback_witness : selectedItem mEmpty = some {} :=
  (selectedItem_total_zero_fallback mEmpty).2 (by decide)

end Circumflex
